import Mathlib

/-!
# note-web: the client-side form/action controller

A shallow embedding of `static/js/notes.js` and of the request helpers of
`static/js/main.js`.

* JavaScript values are the inductive type `JVal`; a Number is kept as its IEEE-754
  binary64 bit pattern, so that truthiness is exact and no floating-point arithmetic is
  needed. The engine's Number-to-String conversion is a parameter `numStr`.
* Everything a handler does to the page or to the network is recorded, in program order,
  in a trace of `Effect`s. Objects handed to a function as an argument (the submit button,
  the file input, the preview container) are threaded through as explicit state.
* Everything a handler reads from the outside (the value of an input, the answer to
  `confirm`, the outcome of `fetch` and of `response.json()`, the result of a file read)
  is an argument.
* A thrown exception is a `none`: of `JVal.get?` (property read on `undefined` or
  `null`), of `JVal.toStr?` (string conversion of an object that carries its own
  `toString`), or it is a `FetchResult.rejected` or an `Except.error` body. What a
  handler did before the throw stays in its trace; `try / catch / finally` is written
  out case by case.

Console output is not part of the trace. The page is assumed to carry the elements the
scripts look up by id, and Bootstrap is assumed to be loaded.
-/

namespace NoteWeb

/-! ## JavaScript values -/

/-- A JavaScript value. `num` carries the binary64 bit pattern of the Number, `formData`
is the host object `new FormData(form)` of the form with the given id. `obj` lists the
own properties of a plain object; a key is read at its first entry. There are no
function values: every own property is a data property that is not callable. -/
inductive JVal where
  | undefined
  | null
  | bool (b : Bool)
  | num (bits : Nat)
  | str (s : String)
  | arr (items : List JVal)
  | obj (fields : List (String × JVal))
  | formData (form : String)

namespace JVal

/-- The Number is `+0` or `-0`: all bits below the sign bit are clear. -/
def numIsZero (bits : Nat) : Bool := bits % 2 ^ 63 == 0

/-- The Number is a NaN: exponent field all ones, fraction field not zero. -/
def numIsNaN (bits : Nat) : Bool :=
  (bits / 2 ^ 52) % 2 ^ 11 == 2047 && bits % 2 ^ 52 != 0

/-- ECMAScript `ToBoolean`. -/
def truthy : JVal → Bool
  | undefined => false
  | null => false
  | bool b => b
  | num bits => !(numIsZero bits || numIsNaN bits)
  | str s => s != ""
  | arr _ => true
  | obj _ => true
  | formData _ => true

/-- The expression `a || b`. -/
def or (a b : JVal) : JVal := if a.truthy then a else b

/-- Property read `v.key`, for the keys the scripts read (`success`, `message`, `title`,
`content`, `image_filename`, `created_at`, `updated_at`, `headers`, `Content-Type`), none
of which is a built-in of a primitive wrapper or of `Array`. `none` is the `TypeError`
thrown on `undefined` and `null`. -/
def get? : JVal → String → Option JVal
  | undefined, _ => none
  | null, _ => none
  | obj fields, key => some ((fields.lookup key).getD undefined)
  | _, _ => some undefined

mutual
/-- ECMAScript `ToString`, as applied by a template literal; `none` is a `TypeError`.
A plain object without an own `toString` is converted by `Object.prototype.toString`.
With an own `toString`, which is not callable, the conversion goes on to `valueOf`,
which is not callable either or returns the object, and throws. An array is converted by
`join`. -/
def toStr? (numStr : Nat → String) : JVal → Option String
  | undefined => some "undefined"
  | null => some "null"
  | bool true => some "true"
  | bool false => some "false"
  | num bits => some (numStr bits)
  | str s => some s
  | arr items => joinStr? numStr items
  | obj fields =>
    if fields.any (fun p => p.1 == "toString") then none else some "[object Object]"
  | formData _ => some "[object FormData]"
/-- `Array.prototype.join` with the default separator. -/
def joinStr? (numStr : Nat → String) : List JVal → Option String
  | [] => some ""
  | [x] => elemStr? numStr x
  | x :: y :: rest =>
    match elemStr? numStr x, joinStr? numStr (y :: rest) with
    | some first, some others => some (first ++ "," ++ others)
    | _, _ => none
/-- One element of a joined array: `undefined` and `null` give the empty string. -/
def elemStr? (numStr : Nat → String) : JVal → Option String
  | undefined => some ""
  | null => some ""
  | v => toStr? numStr v
end

/-- Conversion to a nullable `DOMString`, as done by the `textContent` setter:
`undefined` and `null` become the empty string, every other value goes through
`ToString`. -/
def toDomText? (numStr : Nat → String) : JVal → Option String
  | undefined => some ""
  | null => some ""
  | v => toStr? numStr v

/-- Write `key: value` into a property list: an existing key keeps its place. -/
def setKey : List (String × JVal) → String → JVal → List (String × JVal)
  | [], key, value => [(key, value)]
  | (k, v) :: rest, key, value =>
    if k == key then (k, value) :: rest else (k, v) :: setKey rest key value

/-- The own enumerable properties copied by an object spread `...v`. -/
def ownEntries : JVal → List (String × JVal)
  | obj fields => fields
  | arr items => items.enum.map (fun p => (toString p.1, p.2))
  | str s => s.data.enum.map (fun p => (toString p.1, str (String.mk [p.2])))
  | _ => []

/-- The object literal `{ ...target, ...source }`, `target` given by its property list. -/
def spread (target : List (String × JVal)) (source : JVal) : List (String × JVal) :=
  (ownEntries source).foldl (fun acc p => setKey acc p.1 p.2) target

/-- The statement `delete v[key]`. -/
def deleteKey : JVal → String → JVal
  | obj fields, key => obj (fields.filter (fun p => p.1 != key))
  | v, _ => v

end JVal

/-! ## Strings -/

/-- ECMAScript `WhiteSpace` and `LineTerminator` code points, the ones `trim` strips. -/
def isJsWhitespace (c : Char) : Bool :=
  let n := c.toNat
  n == 0x09 || n == 0x0A || n == 0x0B || n == 0x0C || n == 0x0D || n == 0x20 ||
  n == 0xA0 || n == 0x1680 || (0x2000 ≤ n && n ≤ 0x200A) || n == 0x2028 ||
  n == 0x2029 || n == 0x202F || n == 0x205F || n == 0x3000 || n == 0xFEFF

/-- The method `String.prototype.trim`. -/
def jsTrim (s : String) : String :=
  String.mk ((s.data.dropWhile isJsWhitespace).rdropWhile isJsWhitespace)

/-- The HTML standard's "escaping a string" outside attribute mode, one character. -/
def escapeChar (c : Char) : List Char :=
  if c = '&' then "&amp;".data
  else if c.toNat = 0xA0 then "&nbsp;".data
  else if c = '<' then "&lt;".data
  else if c = '>' then "&gt;".data
  else [c]

/-- The serialisation of a text node with the given data. -/
def escapeText (data : String) : String :=
  String.mk (data.data.flatMap escapeChar)

/-- `escapeHtml(text)`: a detached `div` gets `text` as its `textContent` and is
serialised back through `innerHTML`; `none` when the conversion of `text` throws. -/
def escapeHtml (numStr : Nat → String) (text : JVal) : Option String :=
  (JVal.toDomText? numStr text).map escapeText

/-- Every `&` of the text is followed at once by one of the given entity bodies, such as
`amp;` (the claim's "every `&` begins an entity"). -/
def ampsBeginEntity (bodies : List String) : List Char → Bool
  | [] => true
  | c :: rest =>
    (c != '&' || bodies.any (fun b => b.data.isPrefixOf rest)) &&
      ampsBeginEntity bodies rest

/-- Decoding of character references, from the claim's words: an `&` followed by an entity
body of the table is replaced by the entity's character and the body is skipped; every
other character stands for itself. `skip` counts the characters of a body still to pass
over. -/
def decodeFrom (table : List (String × Char)) : Nat → List Char → List Char
  | _, [] => []
  | skip + 1, _ :: rest => decodeFrom table skip rest
  | 0, c :: rest =>
    if c = '&' then
      match table.find? (fun e => e.1.data.isPrefixOf rest) with
      | some e => e.2 :: decodeFrom table e.1.data.length rest
      | none => c :: decodeFrom table 0 rest
    else c :: decodeFrom table 0 rest

/-- Decoding of the entities of the table in a text. -/
def decodeEntities (table : List (String × Char)) (text : List Char) : List Char :=
  decodeFrom table 0 text

/-- The three entities the claim names. -/
def namedEntities : List (String × Char) :=
  [("amp;", '&'), ("lt;", '<'), ("gt;", '>')]

/-- The entities the serialiser writes: the three above and the no-break space. -/
def writtenEntities : List (String × Char) :=
  [("amp;", '&'), ("lt;", '<'), ("gt;", '>'), ("nbsp;", Char.ofNat 0xA0)]

/-! ## Page, network and trace -/

/-- The alert element built by `showAlert`. -/
structure AlertEl where
  className : String
  zIndex : String
  minWidth : String
  innerHTML : String

/-- A child of an image preview container: its class list and its markup. -/
structure PreviewChild where
  classes : List String
  innerHTML : String

/-- A `File` of a file input. -/
structure File where
  name : String
  type : String
  size : Nat

/-- What a `setTimeout` callback does. -/
inductive TimerAction where
  | removeAlert (el : AlertEl)
  | reload
  | editNote (noteId : JVal)

/-- What a click handler installed by `viewNote` does. -/
inductive ClickHandler where
  | editFromView (noteId : JVal)

/-- One observable action on the page or on the network. -/
inductive Effect where
  | preventDefault
  | appendAlert (el : AlertEl)
  | setTimeout (action : TimerAction) (ms : Nat)
  | focus (id : String)
  | fetch (url : String) (options : JVal)
  | hideModal (id : String)
  | resetForm (id : String)
  | setInnerHTML (id : String) (html : String)
  | setTextContent (id : String) (text : String)
  | setOnclick (id : String) (handler : ClickHandler)
  | setCurrentNoteId (noteId : JVal)
  | readAsDataURL (file : File)

/-- A `Response`: the `ok` flag, the `status` Number, and what `response.json()` settles
to (the parsed body, or a rejection with the error's message). -/
structure Response where
  ok : Bool
  status : Nat
  body : Except String JVal

/-- What `await fetch(...)` settles to. -/
inductive FetchResult where
  | rejected (message : String)
  | response (r : Response)

/-- A submit button, as far as `showLoading` and `hideLoading` touch it;
`originalText` is `dataset.originalText`. -/
structure Button where
  disabled : Bool
  innerHTML : String
  originalText : Option String

/-- A file input: its file list and its `value`. -/
structure FileInput where
  files : List File
  value : String

/-- The requests issued: url and options of each `fetch`. -/
def requests (t : List Effect) : List (String × JVal) :=
  t.filterMap (fun e => match e with
    | .fetch url options => some (url, options)
    | _ => none)

/-- The delays of the page reloads scheduled. -/
def reloads (t : List Effect) : List Nat :=
  t.filterMap (fun e => match e with
    | .setTimeout .reload ms => some ms
    | _ => none)

/-- The notifications shown: the alert elements appended to the body. -/
def notifications (t : List Effect) : List AlertEl :=
  t.filterMap (fun e => match e with
    | .appendAlert el => some el
    | _ => none)

/-- The file reads started. -/
def fileReads (t : List Effect) : List File :=
  t.filterMap (fun e => match e with
    | .readAsDataURL file => some file
    | _ => none)

/-- The strings written to the `textContent` of the element with the given id. -/
def textWrites (id : String) (t : List Effect) : List String :=
  t.filterMap (fun e => match e with
    | .setTextContent target text => if target = id then some text else none
    | _ => none)

/-- The strings written to the `innerHTML` of the element with the given id. -/
def htmlWrites (id : String) (t : List Effect) : List String :=
  t.filterMap (fun e => match e with
    | .setInnerHTML target html => if target = id then some html else none
    | _ => none)

/-! ## `notes.js` -/

/-- `showLoading(button)`; `none` is a missing button. -/
def showLoading (button : Option Button) : Option Button :=
  match button with
  | none => none
  | some b =>
    some { disabled := true
           originalText := some b.innerHTML
           innerHTML := "<span class=\"spinner-border spinner-border-sm me-2\"></span>Loading..." }

/-- `hideLoading(button)`. -/
def hideLoading (button : Option Button) : Option Button :=
  match button with
  | none => none
  | some b =>
    match b.originalText with
    | some text =>
      if text != "" then some { b with disabled := false, innerHTML := text }
      else some { b with disabled := false }
    | none => some { b with disabled := false }

/-- The element `alertDiv` that `showAlert(message, type)` builds, `text` being the
message as the template literal converts it. -/
def alertElement (text : String) (type : String) : AlertEl :=
  { className := "alert alert-" ++ type ++
      " alert-dismissible fade show position-fixed top-0 start-50 translate-middle-x mt-3"
    zIndex := "9999"
    minWidth := "300px"
    innerHTML := "\n        " ++ text ++
      "\n        <button type=\"button\" class=\"btn-close\" data-bs-dismiss=\"alert\"></button>\n    " }

/-- `showAlert(message, type)` of `notes.js` for a message that is a string, as in every
call with a string literal: the element is appended and its removal scheduled. -/
def showAlertText (text : String) (type : String) : List Effect :=
  let alertDiv := alertElement text type
  [.appendAlert alertDiv, .setTimeout (.removeAlert alertDiv) 5000]

/-- `showAlert(message, type)` of `notes.js`; every call in the file passes `type`. The
template literal converts `message` before the element is appended: `none` is the
`TypeError` of that conversion, thrown with nothing done to the page. -/
def showAlert (numStr : Nat → String) (message : JVal) (type : String) :
    Option (List Effect) :=
  match message.toStr? numStr with
  | some text => some (showAlertText text type)
  | none => none

/-- What a submit handler leaves behind: its trace and the submit button. -/
structure Run where
  trace : List Effect
  submitBtn : Option Button

/-- The `try` block of the add-note handler after `fetch` has been called, with its
`catch`; `modal` tells whether `bootstrap.Modal.getInstance` finds the add modal. -/
def addNoteResponse (numStr : Nat → String) (modal : Bool) (net : FetchResult) :
    List Effect :=
  let caught := showAlertText
    "An error occurred while adding the note. Please try again." "danger"
  match net with
  | .rejected _ => caught
  | .response r =>
    match r.body with
    | .error _ => caught
    | .ok result =>
      match result.get? "success", result.get? "message" with
      | some success, some message =>
        if success.truthy then
          match showAlert numStr (message.or (.str "Note added successfully!")) "success" with
          | some shown =>
            shown ++
            (if modal then [.hideModal "addNoteModal"] else []) ++
            [.resetForm "addNoteForm", .setInnerHTML "addImagePreview" "",
             .setTimeout .reload 1000]
          | none => caught
        else
          match showAlert numStr (message.or (.str "Failed to add note")) "danger" with
          | some shown => shown
          | none => caught
      | _, _ => caught

/-- The submit handler of `addNoteForm`; `title` is the value of `addNoteTitle`. -/
def addNoteSubmit (numStr : Nat → String) (title : String) (submitBtn : Option Button)
    (modal : Bool) (net : FetchResult) : Run :=
  if jsTrim title = "" then
    { trace := [.preventDefault] ++
        showAlertText "Please enter a title for your note" "warning" ++
        [.focus "addNoteTitle"]
      submitBtn := submitBtn }
  else
    { trace := [.preventDefault,
        .fetch "/add_note" (.obj [("method", .str "POST"), ("body", .formData "addNoteForm")])] ++
        addNoteResponse numStr modal net
      submitBtn := hideLoading (showLoading submitBtn) }

/-- The `try` block of the edit-note handler after `fetch` has been called, with its
`catch`. -/
def editNoteResponse (numStr : Nat → String) (modal : Bool) (net : FetchResult) :
    List Effect :=
  let caught := showAlertText
    "An error occurred while updating the note. Please try again." "danger"
  match net with
  | .rejected _ => caught
  | .response r =>
    match r.body with
    | .error _ => caught
    | .ok result =>
      match result.get? "success", result.get? "message" with
      | some success, some message =>
        if success.truthy then
          match showAlert numStr (message.or (.str "Note updated successfully!")) "success" with
          | some shown =>
            shown ++
            (if modal then [.hideModal "editNoteModal"] else []) ++
            [.setTimeout .reload 1000]
          | none => caught
        else
          match showAlert numStr (message.or (.str "Failed to update note")) "danger" with
          | some shown => shown
          | none => caught
      | _, _ => caught

/-- The submit handler of `editNoteForm`; `noteId` is the value of `editNoteId`, `title`
the value of `editNoteTitle`. -/
def editNoteSubmit (numStr : Nat → String) (noteId title : String)
    (submitBtn : Option Button) (modal : Bool) (net : FetchResult) : Run :=
  if jsTrim title = "" then
    { trace := [.preventDefault] ++
        showAlertText "Please enter a title for your note" "warning" ++
        [.focus "editNoteTitle"]
      submitBtn := submitBtn }
  else
    { trace := [.preventDefault,
        .fetch ("/edit_note/" ++ noteId)
          (.obj [("method", .str "POST"), ("body", .formData "editNoteForm")])] ++
        editNoteResponse numStr modal net
      submitBtn := hideLoading (showLoading submitBtn) }

/-- Statements run one after the other, each given by what it does to the page, `none`
when it throws: the effects up to the first throw, and whether the end was reached. -/
def runSteps : List (Option (List Effect)) → List Effect × Bool
  | [] => ([], true)
  | none :: _ => ([], false)
  | some done :: rest => (done ++ (runSteps rest).1, (runSteps rest).2)

/-- The statements of `viewNote` after the note has been parsed, in order: the title,
the content, the image, and the dates with the edit button and `currentNoteId`. A step
throws when a property is read on `undefined` or `null` or when a string conversion
throws. -/
def viewNoteSteps (numStr : Nat → String) (noteId note : JVal) :
    List (Option (List Effect)) :=
  [ (note.get? "title").bind (fun title =>
      (title.toDomText? numStr).map (fun text =>
        [.setTextContent "viewNoteTitle" text])),
    (note.get? "content").bind (fun content =>
      if content.truthy then
        (escapeHtml numStr content).map (fun escaped =>
          [.setInnerHTML "viewNoteContent"
            ("<p style=\"white-space: pre-wrap;\">" ++ escaped ++ "</p>")])
      else some [.setInnerHTML "viewNoteContent" "<em class=\"text-muted\">No content</em>"]),
    (note.get? "image_filename").bind (fun image =>
      if image.truthy then
        (image.toStr? numStr).map (fun filename =>
          [.setInnerHTML "viewNoteImage"
            ("\n                <img src=\"/static/uploads/" ++ filename ++
             "\" \n                     class=\"img-fluid rounded mb-3\" alt=\"Note image\" " ++
             "\n                     style=\"max-height: 300px; width: 100%; object-fit: cover;\">" ++
             "\n            ")])
      else some [.setInnerHTML "viewNoteImage" ""]),
    (note.get? "created_at").bind (fun created =>
      (created.toStr? numStr).bind (fun createdText =>
        (note.get? "updated_at").bind (fun updated =>
          (updated.toStr? numStr).map (fun updatedText =>
            [.setInnerHTML "viewNoteDates"
              ("\n            <small>\n                <strong>Created:</strong> " ++
               createdText ++ "<br>\n                <strong>Updated:</strong> " ++
               updatedText ++ "\n            </small>\n        "),
             .setOnclick "editFromViewBtn" (.editFromView noteId),
             .setCurrentNoteId noteId])))) ]

/-- `viewNote(noteId)`. The template literal of the url is converted inside the `try`,
before `fetch` is called. -/
def viewNote (numStr : Nat → String) (noteId : JVal) (net : FetchResult) : List Effect :=
  let caught := showAlertText "Failed to load note. Please try again." "danger"
  match noteId.toStr? numStr with
  | none => caught
  | some idText =>
    [.fetch ("/get_note/" ++ idText) .undefined] ++
    match net with
    | .rejected _ => caught
    | .response r =>
      if !r.ok then caught
      else
        match r.body with
        | .error _ => caught
        | .ok note =>
          if (runSteps (viewNoteSteps numStr noteId note)).2 then
            (runSteps (viewNoteSteps numStr noteId note)).1
          else (runSteps (viewNoteSteps numStr noteId note)).1 ++ caught

/-- The click handler that `viewNote` installs on `editFromViewBtn`. -/
def editFromViewClick (noteId : JVal) (viewModal : Bool) : List Effect :=
  (if viewModal then [.hideModal "viewNoteModal"] else []) ++
  [.setTimeout (.editNote noteId) 300]

/-- The `try` block of `deleteNote` after `fetch` has been called, with its `catch`.
`response.ok && result.success` reads `result.success` only when `response.ok`. -/
def deleteNoteResponse (numStr : Nat → String) (net : FetchResult) : List Effect :=
  let caught := showAlertText
    "An error occurred while deleting the note. Please try again." "danger"
  match net with
  | .rejected _ => caught
  | .response r =>
    match r.body with
    | .error _ => caught
    | .ok result =>
      match (if r.ok then (result.get? "success").map JVal.truthy else some false),
          result.get? "message" with
      | some true, some message =>
        match showAlert numStr (message.or (.str "Note deleted successfully!")) "success" with
        | some shown => shown ++ [.setTimeout .reload 1000]
        | none => caught
      | some false, some message =>
        match showAlert numStr (message.or (.str "Failed to delete note")) "danger" with
        | some shown => shown
        | none => caught
      | _, _ => caught

/-- `deleteNote(noteId)`; `confirmed` is the answer to the `confirm` prompt. The template
literal of the url is converted inside the `try`, before `fetch` is called. -/
def deleteNote (numStr : Nat → String) (noteId : JVal) (confirmed : Bool)
    (net : FetchResult) : List Effect :=
  if !confirmed then []
  else
    match noteId.toStr? numStr with
    | none =>
      showAlertText "An error occurred while deleting the note. Please try again." "danger"
    | some idText =>
      [.fetch ("/delete_note/" ++ idText)
        (.obj [("method", .str "POST"),
               ("headers", .obj [("Content-Type", .str "application/json")])])] ++
      deleteNoteResponse numStr net

/-- The MIME types `previewImage` lets through. -/
def allowedTypes : List String :=
  ["image/jpeg", "image/jpg", "image/png", "image/gif", "image/bmp", "image/webp"]

/-- The size ceiling of `previewImage`, in bytes. -/
def maxSize : Nat := 16 * 1024 * 1024

/-- What `previewImage` leaves behind: the file input, the children of the preview
container, and its trace. -/
structure PreviewRun where
  input : FileInput
  preview : List PreviewChild
  trace : List Effect

/-- The statement `preview.querySelector(sel)?.remove()` for a class selector: the first
child carrying the class goes. -/
def removeFirstOfClass (cls : String) : List PreviewChild → List PreviewChild
  | [] => []
  | c :: rest => if c.classes.contains cls then rest else c :: removeFirstOfClass cls rest

/-- The `onload` callback of the reader; `result` is `e.target.result`. -/
def previewOnload (preview : List PreviewChild) (result : String) : List PreviewChild :=
  let previewDiv : PreviewChild :=
    { classes := ["new-image-preview"]
      innerHTML := "\n            <p class=\"text-muted mb-2\">New image preview:</p>" ++
        "\n            <img src=\"" ++ result ++ "\" class=\"img-fluid rounded\" " ++
        "\n                 alt=\"Image preview\" style=\"max-height: 200px; object-fit: cover;\">" ++
        "\n        " }
  removeFirstOfClass "new-image-preview" preview ++ [previewDiv]

/-- `previewImage(input, previewId)` of `notes.js`; `preview` is the children of the
element with id `previewId`, `loaded` the result of the file read when its `load` event
fires. Setting the `value` of a file input to the empty string empties its file list. -/
def previewImage (input : FileInput) (previewId : String)
    (preview : List PreviewChild) (loaded : Option String) : PreviewRun :=
  match input.files with
  | [] => { input := input, preview := preview, trace := [] }
  | file :: _ =>
    if !allowedTypes.contains file.type then
      { input := { files := [], value := "" }
        preview := preview
        trace := showAlertText
          "Please select a valid image file (JPG, PNG, GIF, BMP, WEBP)" "danger" }
    else if file.size > maxSize then
      { input := { files := [], value := "" }
        preview := preview
        trace := showAlertText "File size must be less than 16MB" "danger" }
    else
      let preview1 :=
        if previewId = "editImagePreview" then removeFirstOfClass "current-image" preview
        else preview
      { input := input
        preview := match loaded with
          | some result => previewOnload preview1 result
          | none => preview1
        trace := [.readAsDataURL file] }

/-! ## `main.js` -/

/-- `makeRequest(url, options)`: its trace and the object it resolves to. A missing
`options` argument defaults to the empty object. -/
def makeRequest (url : String) (options : JVal) (net : FetchResult) : List Effect × JVal :=
  let options := match options with
    | .undefined => JVal.obj []
    | o => o
  let defaultOptions := JVal.obj [("headers", .obj [("Content-Type", .str "application/json")])]
  let mergedOptions := JVal.obj (JVal.spread (JVal.spread [] defaultOptions) options)
  ([.fetch url mergedOptions],
    match net with
    | .rejected message => .obj [("success", .bool false), ("error", .str message)]
    | .response r =>
      match r.body with
      | .error message => .obj [("success", .bool false), ("error", .str message)]
      | .ok data => .obj [("success", .bool r.ok), ("data", data), ("status", .num r.status)])

/-- `submitForm(form, url, options)`, `form` given by its id. The `delete` acts on the
headers object that `requestOptions.headers` refers to. -/
def submitForm (form : String) (url : String) (options : JVal) (net : FetchResult) :
    List Effect × JVal :=
  let options := match options with
    | .undefined => JVal.obj []
    | o => o
  let requestOptions :=
    JVal.spread [("method", .str "POST"), ("body", .formData form)] options
  let requestOptions :=
    match List.lookup "headers" requestOptions with
    | some headers =>
      if headers.truthy then
        JVal.setKey requestOptions "headers" (headers.deleteKey "Content-Type")
      else requestOptions
    | none => requestOptions
  makeRequest url (.obj requestOptions) net

/-! ## Helper lemmas -/

/-- A property read that succeeds on a value succeeds for every key. -/
theorem get?_some_of_some (v : JVal) (k k2 : String) (w : JVal) (h : v.get? k = some w) :
    ∃ w2, v.get? k2 = some w2 := by
  cases v <;> simp_all [JVal.get?]

theorem requests_append (a b : List Effect) : requests (a ++ b) = requests a ++ requests b := by
  simp [requests]

theorem reloads_append (a b : List Effect) : reloads (a ++ b) = reloads a ++ reloads b := by
  simp [reloads]

theorem reloads_showAlertText (text type : String) :
    reloads (showAlertText text type) = [] := by
  simp [reloads, showAlertText]

theorem truthy_str (s : String) : (JVal.str s).truthy = (s != "") :=
  rfl

theorem toStr?_str (numStr : Nat → String) (s : String) :
    (JVal.str s).toStr? numStr = some s := by
  simp [JVal.toStr?]

theorem toStr?_num (numStr : Nat → String) (bits : Nat) :
    (JVal.num bits).toStr? numStr = some (numStr bits) := by
  simp [JVal.toStr?]

/-- A value that is falsy, or that converts, still converts behind `|| "default"`. -/
theorem toStr?_or (numStr : Nat → String) (message : JVal) (text dflt : String)
    (h : message.toStr? numStr = some text) :
    (message.or (.str dflt)).toStr? numStr =
      some (if message.truthy = true then text else dflt) := by
  unfold JVal.or
  split <;> simp_all [JVal.toStr?]

theorem showAlert_or (numStr : Nat → String) (message : JVal) (text dflt type : String)
    (h : message.toStr? numStr = some text) :
    showAlert numStr (message.or (.str dflt)) type =
      some (showAlertText (if message.truthy = true then text else dflt) type) := by
  simp [showAlert, toStr?_or numStr message text dflt h]

/-- A value whose conversion throws is an object or an array, hence truthy. -/
theorem truthy_of_toStr?_none (numStr : Nat → String) (message : JVal)
    (h : message.toStr? numStr = none) : message.truthy = true := by
  cases message with
  | bool b => cases b <;> simp [JVal.toStr?] at h
  | arr items => rfl
  | obj fields => rfl
  | _ => simp [JVal.toStr?] at h

theorem showAlert_or_none (numStr : Nat → String) (message : JVal) (dflt type : String)
    (h : message.toStr? numStr = none) :
    showAlert numStr (message.or (.str dflt)) type = none := by
  simp [showAlert, JVal.or, truthy_of_toStr?_none numStr message h, h]

/-- Whether or not the conversion throws, `showAlert` schedules no reload. -/
theorem reloads_showAlert (numStr : Nat → String) (message : JVal) (type : String)
    (shown : List Effect) (h : showAlert numStr message type = some shown) :
    reloads shown = [] := by
  unfold showAlert at h
  split at h
  · cases h; exact reloads_showAlertText _ _
  · cases h

theorem requests_showAlertText (text type : String) :
    requests (showAlertText text type) = [] := by
  simp [requests, showAlertText]

theorem requests_showAlert (numStr : Nat → String) (message : JVal) (type : String)
    (shown : List Effect) (h : showAlert numStr message type = some shown) :
    requests shown = [] := by
  unfold showAlert at h
  split at h
  · cases h; exact requests_showAlertText _ _
  · cases h

/-- After `fetch` has been called, `deleteNote` issues no further request. -/
theorem requests_deleteNoteResponse (numStr : Nat → String) (net : FetchResult) :
    requests (deleteNoteResponse numStr net) = [] := by
  simp only [deleteNoteResponse]
  repeat' split
  all_goals first
    | exact requests_showAlertText _ _
    | exact requests_showAlert _ _ _ _ ‹_›
    | (rw [requests_append, requests_showAlert _ _ _ _ ‹_›]; simp [requests])

/-- The class of an alert carries its type. -/
theorem alertElement_className (text type : String) :
    (alertElement text type).className = "alert alert-" ++ type ++
      " alert-dismissible fade show position-fixed top-0 start-50 translate-middle-x mt-3" :=
  rfl

/-- The message is placed in the alert's markup as it is. -/
theorem alertElement_innerHTML (text type : String) :
    (alertElement text type).innerHTML = "\n        " ++ text ++
      "\n        <button type=\"button\" class=\"btn-close\" data-bs-dismiss=\"alert\"></button>\n    " :=
  rfl

/-- The trimmed value is empty exactly for the empty and the whitespace-only strings. -/
theorem jsTrim_eq_empty_iff (s : String) :
    jsTrim s = "" ↔ ∀ c ∈ s.data, isJsWhitespace c = true := by
  have h0 : ∀ l : List Char, String.mk l = "" ↔ l = [] := by
    intro l
    constructor
    · intro h; exact congrArg String.data h
    · intro h; subst h; rfl
  unfold jsTrim
  rw [h0, List.rdropWhile_eq_nil_iff]
  constructor
  · intro h c hc
    rw [← List.takeWhile_append_dropWhile isJsWhitespace s.data] at hc
    rcases List.mem_append.mp hc with h1 | h1
    · exact List.mem_takeWhile_imp h1
    · exact h c h1
  · intro h c hc
    exact h c ((List.dropWhile_sublist _).subset hc)

/-! ## Blank titles -/

/-- C1: for every title whose trimmed value is empty, the add-note and the edit-note
submit handlers issue no request, schedule no reload, and show exactly one notification,
the `warning` alert. -/
theorem blank_title_sends_nothing (numStr : Nat → String) (noteId title : String)
    (submitBtn : Option Button) (modal : Bool) (net : FetchResult)
    (h : jsTrim title = "") :
    (requests (addNoteSubmit numStr title submitBtn modal net).trace = [] ∧
     reloads (addNoteSubmit numStr title submitBtn modal net).trace = [] ∧
     notifications (addNoteSubmit numStr title submitBtn modal net).trace =
       [alertElement "Please enter a title for your note" "warning"]) ∧
    (requests (editNoteSubmit numStr noteId title submitBtn modal net).trace = [] ∧
     reloads (editNoteSubmit numStr noteId title submitBtn modal net).trace = [] ∧
     notifications (editNoteSubmit numStr noteId title submitBtn modal net).trace =
       [alertElement "Please enter a title for your note" "warning"]) := by
  simp [addNoteSubmit, editNoteSubmit, h, showAlertText, requests, reloads, notifications]

/-- C1 at the title made of a space and a tab. -/
theorem blank_title_sends_nothing_witness :
    jsTrim " \t" = "" ∧
    (requests (addNoteSubmit (fun _ => "") " \t" none false (.rejected "")).trace = [] ∧
     reloads (addNoteSubmit (fun _ => "") " \t" none false (.rejected "")).trace = [] ∧
     notifications (addNoteSubmit (fun _ => "") " \t" none false (.rejected "")).trace =
       [alertElement "Please enter a title for your note" "warning"]) ∧
    (requests (editNoteSubmit (fun _ => "") "7" " \t" none false (.rejected "")).trace = [] ∧
     reloads (editNoteSubmit (fun _ => "") "7" " \t" none false (.rejected "")).trace = [] ∧
     notifications (editNoteSubmit (fun _ => "") "7" " \t" none false (.rejected "")).trace =
       [alertElement "Please enter a title for your note" "warning"]) :=
  ⟨by decide,
   blank_title_sends_nothing (fun _ => "") "7" " \t" none false (.rejected "") (by decide)⟩

/-! ## Image selection -/

/-- C2: for every selected file whose MIME type is not in the allow-list, whatever its
size, `previewImage` clears the input's value, shows the `danger` alert, starts no file
read and no request, and leaves the preview as it was. -/
theorem disallowed_type_rejected (input : FileInput)
    (previewId : String) (preview : List PreviewChild) (loaded : Option String)
    (file : File) (rest : List File)
    (hfile : input.files = file :: rest) (htype : file.type ∉ allowedTypes) :
    (previewImage input previewId preview loaded).input.value = "" ∧
    notifications (previewImage input previewId preview loaded).trace =
      [alertElement "Please select a valid image file (JPG, PNG, GIF, BMP, WEBP)" "danger"] ∧
    fileReads (previewImage input previewId preview loaded).trace = [] ∧
    requests (previewImage input previewId preview loaded).trace = [] ∧
    (previewImage input previewId preview loaded).preview = preview := by
  simp [previewImage, hfile, htype, showAlertText, notifications, fileReads, requests]

/-- C2 at a one-byte PDF. -/
theorem disallowed_type_rejected_witness :
    (FileInput.mk [File.mk "a.pdf" "application/pdf" 1] "a.pdf").files =
      File.mk "a.pdf" "application/pdf" 1 :: [] ∧
    (File.mk "a.pdf" "application/pdf" 1).type ∉ allowedTypes ∧
    (previewImage (FileInput.mk [File.mk "a.pdf" "application/pdf" 1] "a.pdf")
      "addImagePreview" [] (some "data:")).input.value = "" ∧
    notifications (previewImage
      (FileInput.mk [File.mk "a.pdf" "application/pdf" 1] "a.pdf")
      "addImagePreview" [] (some "data:")).trace =
      [alertElement "Please select a valid image file (JPG, PNG, GIF, BMP, WEBP)" "danger"] ∧
    fileReads (previewImage
      (FileInput.mk [File.mk "a.pdf" "application/pdf" 1] "a.pdf")
      "addImagePreview" [] (some "data:")).trace = [] ∧
    requests (previewImage
      (FileInput.mk [File.mk "a.pdf" "application/pdf" 1] "a.pdf")
      "addImagePreview" [] (some "data:")).trace = [] ∧
    (previewImage (FileInput.mk [File.mk "a.pdf" "application/pdf" 1] "a.pdf")
      "addImagePreview" [] (some "data:")).preview = [] :=
  ⟨rfl, by decide,
   disallowed_type_rejected
     (FileInput.mk [File.mk "a.pdf" "application/pdf" 1] "a.pdf")
     "addImagePreview" [] (some "data:") (File.mk "a.pdf" "application/pdf" 1) []
     rfl (by decide)⟩

/-- C3: for every selected file with an allowed MIME type and a size larger than
16 * 1024 * 1024 bytes, `previewImage` clears the input's value, shows the `danger`
alert, and renders no preview: no file read starts and the preview stays as it was. -/
theorem oversize_rejected (input : FileInput)
    (previewId : String) (preview : List PreviewChild) (loaded : Option String)
    (file : File) (rest : List File)
    (hfile : input.files = file :: rest) (htype : file.type ∈ allowedTypes)
    (hsize : 16 * 1024 * 1024 < file.size) :
    (previewImage input previewId preview loaded).input.value = "" ∧
    notifications (previewImage input previewId preview loaded).trace =
      [alertElement "File size must be less than 16MB" "danger"] ∧
    fileReads (previewImage input previewId preview loaded).trace = [] ∧
    (previewImage input previewId preview loaded).preview = preview := by
  have h2 : maxSize < file.size := hsize
  simp [previewImage, hfile, htype, h2, showAlertText, notifications, fileReads]

/-- C3 at a PNG of 16 MiB and one byte. -/
theorem oversize_rejected_witness :
    (FileInput.mk [File.mk "a.png" "image/png" 16777217] "a.png").files =
      File.mk "a.png" "image/png" 16777217 :: [] ∧
    (File.mk "a.png" "image/png" 16777217).type ∈ allowedTypes ∧
    16 * 1024 * 1024 < (File.mk "a.png" "image/png" 16777217).size ∧
    (previewImage (FileInput.mk [File.mk "a.png" "image/png" 16777217] "a.png")
      "editImagePreview" [] (some "data:")).input.value = "" ∧
    notifications (previewImage
      (FileInput.mk [File.mk "a.png" "image/png" 16777217] "a.png")
      "editImagePreview" [] (some "data:")).trace =
      [alertElement "File size must be less than 16MB" "danger"] ∧
    fileReads (previewImage
      (FileInput.mk [File.mk "a.png" "image/png" 16777217] "a.png")
      "editImagePreview" [] (some "data:")).trace = [] ∧
    (previewImage (FileInput.mk [File.mk "a.png" "image/png" 16777217] "a.png")
      "editImagePreview" [] (some "data:")).preview = [] :=
  ⟨rfl, by decide, by decide,
   oversize_rejected
     (FileInput.mk [File.mk "a.png" "image/png" 16777217] "a.png")
     "editImagePreview" [] (some "data:") (File.mk "a.png" "image/png" 16777217) []
     rfl (by decide) (by decide)⟩

/-! ## Responses of the add, edit and delete flows -/

/-- C4: in the add and the edit flow a parsed body with truthy `success`, and in the
delete flow such a body together with `response.ok`, schedules exactly one page reload,
after 1000 ms, and shows exactly one notification: an alert of class `alert-success`
whose markup carries the server's message when that is truthy and the flow's default
otherwise. The message is one whose string conversion does not throw, as is the note id
of the delete flow. -/
theorem success_reloads_once (numStr : Nat → String) (noteId title : String)
    (submitBtn : Option Button) (modal : Bool) (noteRef : JVal)
    (r : Response) (result success message : JVal) (text : String)
    (htitle : jsTrim title ≠ "") (hbody : r.body = .ok result)
    (hsuccess : result.get? "success" = some success) (htruthy : success.truthy = true)
    (hmessage : result.get? "message" = some message)
    (htext : message.toStr? numStr = some text) :
    (reloads (addNoteSubmit numStr title submitBtn modal (.response r)).trace = [1000] ∧
     (notifications (addNoteSubmit numStr title submitBtn modal (.response r)).trace).map (fun el => (el.className, el.innerHTML)) =
       [("alert alert-success alert-dismissible fade show position-fixed top-0 start-50 translate-middle-x mt-3",
         "\n        " ++ (if message.truthy = true then text else "Note added successfully!") ++
         "\n        <button type=\"button\" class=\"btn-close\" data-bs-dismiss=\"alert\"></button>\n    ")]) ∧
    (reloads (editNoteSubmit numStr noteId title submitBtn modal (.response r)).trace = [1000] ∧
     (notifications (editNoteSubmit numStr noteId title submitBtn modal (.response r)).trace).map (fun el => (el.className, el.innerHTML)) =
       [("alert alert-success alert-dismissible fade show position-fixed top-0 start-50 translate-middle-x mt-3",
         "\n        " ++ (if message.truthy = true then text else "Note updated successfully!") ++
         "\n        <button type=\"button\" class=\"btn-close\" data-bs-dismiss=\"alert\"></button>\n    ")]) ∧
    (r.ok = true → ∀ idText, noteRef.toStr? numStr = some idText →
      reloads (deleteNote numStr noteRef true (.response r)) = [1000] ∧
      (notifications (deleteNote numStr noteRef true (.response r))).map (fun el => (el.className, el.innerHTML)) =
        [("alert alert-success alert-dismissible fade show position-fixed top-0 start-50 translate-middle-x mt-3",
          "\n        " ++ (if message.truthy = true then text else "Note deleted successfully!") ++
          "\n        <button type=\"button\" class=\"btn-close\" data-bs-dismiss=\"alert\"></button>\n    ")]) := by
  refine ⟨⟨?_, ?_⟩, ⟨?_, ?_⟩, ?_⟩
  · cases modal <;>
      simp [addNoteSubmit, addNoteResponse, htitle, hbody, hsuccess, hmessage, htruthy,
        showAlert_or numStr message text _ _ htext, reloads, showAlertText]
  · cases modal <;>
      simp [addNoteSubmit, addNoteResponse, htitle, hbody, hsuccess, hmessage, htruthy,
        showAlert_or numStr message text _ _ htext, notifications, showAlertText,
        alertElement]
  · cases modal <;>
      simp [editNoteSubmit, editNoteResponse, htitle, hbody, hsuccess, hmessage, htruthy,
        showAlert_or numStr message text _ _ htext, reloads, showAlertText]
  · cases modal <;>
      simp [editNoteSubmit, editNoteResponse, htitle, hbody, hsuccess, hmessage, htruthy,
        showAlert_or numStr message text _ _ htext, notifications, showAlertText,
        alertElement]
  · intro hok idText hid
    constructor
    · simp [deleteNote, deleteNoteResponse, hid, hbody, hsuccess, hmessage, htruthy, hok,
        showAlert_or numStr message text _ _ htext, reloads, showAlertText]
    · simp [deleteNote, deleteNoteResponse, hid, hbody, hsuccess, hmessage, htruthy, hok,
        showAlert_or numStr message text _ _ htext, notifications, showAlertText,
        alertElement]

/-- C4 at a 200 response with body `success: true, message: "Saved"`. -/
theorem success_reloads_once_witness :
    jsTrim "A" ≠ "" ∧
    (Response.mk true 0x4069000000000000 (.ok (JVal.obj [("success", .bool true), ("message", .str "Saved")]))).body = .ok (JVal.obj [("success", .bool true), ("message", .str "Saved")]) ∧
    (JVal.obj [("success", .bool true), ("message", .str "Saved")]).get? "success" = some (.bool true) ∧
    (JVal.bool true).truthy = true ∧
    (JVal.obj [("success", .bool true), ("message", .str "Saved")]).get? "message" = some (.str "Saved") ∧
    (JVal.str "Saved").toStr? (fun _ => "") = some "Saved" ∧
    (reloads (addNoteSubmit (fun _ => "") "A" none true (.response (Response.mk true 0x4069000000000000 (.ok (JVal.obj [("success", .bool true), ("message", .str "Saved")]))))).trace = [1000] ∧
     (notifications (addNoteSubmit (fun _ => "") "A" none true (.response (Response.mk true 0x4069000000000000 (.ok (JVal.obj [("success", .bool true), ("message", .str "Saved")]))))).trace).map (fun el => (el.className, el.innerHTML)) =
       [("alert alert-success alert-dismissible fade show position-fixed top-0 start-50 translate-middle-x mt-3",
         "\n        " ++ (if (JVal.str "Saved").truthy = true then "Saved" else "Note added successfully!") ++
         "\n        <button type=\"button\" class=\"btn-close\" data-bs-dismiss=\"alert\"></button>\n    ")]) ∧
    (reloads (editNoteSubmit (fun _ => "") "7" "A" none true (.response (Response.mk true 0x4069000000000000 (.ok (JVal.obj [("success", .bool true), ("message", .str "Saved")]))))).trace = [1000] ∧
     (notifications (editNoteSubmit (fun _ => "") "7" "A" none true (.response (Response.mk true 0x4069000000000000 (.ok (JVal.obj [("success", .bool true), ("message", .str "Saved")]))))).trace).map (fun el => (el.className, el.innerHTML)) =
       [("alert alert-success alert-dismissible fade show position-fixed top-0 start-50 translate-middle-x mt-3",
         "\n        " ++ (if (JVal.str "Saved").truthy = true then "Saved" else "Note updated successfully!") ++
         "\n        <button type=\"button\" class=\"btn-close\" data-bs-dismiss=\"alert\"></button>\n    ")]) ∧
    ((Response.mk true 0x4069000000000000 (.ok (JVal.obj [("success", .bool true), ("message", .str "Saved")]))).ok = true → ∀ idText, (JVal.str "7").toStr? (fun _ => "") = some idText →
      reloads (deleteNote (fun _ => "") (.str "7") true (.response (Response.mk true 0x4069000000000000 (.ok (JVal.obj [("success", .bool true), ("message", .str "Saved")]))))) = [1000] ∧
      (notifications (deleteNote (fun _ => "") (.str "7") true (.response (Response.mk true 0x4069000000000000 (.ok (JVal.obj [("success", .bool true), ("message", .str "Saved")])))))).map (fun el => (el.className, el.innerHTML)) =
        [("alert alert-success alert-dismissible fade show position-fixed top-0 start-50 translate-middle-x mt-3",
          "\n        " ++ (if (JVal.str "Saved").truthy = true then "Saved" else "Note deleted successfully!") ++
          "\n        <button type=\"button\" class=\"btn-close\" data-bs-dismiss=\"alert\"></button>\n    ")]) :=
  ⟨by decide, rfl, rfl, rfl, rfl, toStr?_str _ _,
   success_reloads_once (fun _ => "") "7" "A" none true (.str "7") (Response.mk true 0x4069000000000000 (.ok (JVal.obj [("success", .bool true), ("message", .str "Saved")])))
     (JVal.obj [("success", .bool true), ("message", .str "Saved")]) (.bool true) (.str "Saved") "Saved"
     (by decide) rfl rfl rfl rfl (toStr?_str _ _)⟩

/-- C5, the code at the failing input: a response with HTTP status 500 whose body says
`success: true` makes the add and the edit handler schedule a reload after 1000 ms,
while `deleteNote`, which tests `response.ok`, schedules none. -/
theorem add_edit_reload_on_http_error :
    reloads (addNoteSubmit (fun _ => "") "A" none false
      (.response { ok := false, status := 0x407F400000000000,
                   body := .ok (.obj [("success", .bool true)]) })).trace = [1000] ∧
    reloads (editNoteSubmit (fun _ => "") "7" "A" none false
      (.response { ok := false, status := 0x407F400000000000,
                   body := .ok (.obj [("success", .bool true)]) })).trace = [1000] ∧
    reloads (deleteNote (fun _ => "") (.str "7") true
      (.response { ok := false, status := 0x407F400000000000,
                   body := .ok (.obj [("success", .bool true)]) })) = [] := by
  have h : jsTrim "A" ≠ "" := by decide
  simp [addNoteSubmit, editNoteSubmit, deleteNote, addNoteResponse, editNoteResponse,
    deleteNoteResponse, h, JVal.get?, JVal.truthy, JVal.or, JVal.toStr?, reloads, showAlert,
    showAlertText, List.lookup]

/-- The response part of the add flow schedules no reload when the request throws, when
`response.json()` throws, or when the parsed body's `success` is falsy. -/
theorem addNoteResponse_no_reload (numStr : Nat → String) (modal : Bool) (net : FetchResult)
    (hfail : (∃ m, net = .rejected m) ∨
      (∃ r, net = .response r ∧
        ((∃ m, r.body = .error m) ∨
         (∃ result success, r.body = .ok result ∧ result.get? "success" = some success ∧
            success.truthy = false)))) :
    reloads (addNoteResponse numStr modal net) = [] := by
  rcases hfail with ⟨m, rfl⟩ | ⟨r, rfl, ⟨m, hb⟩ | ⟨result, success, hb, hs, ht⟩⟩
  · simp [addNoteResponse, reloads_showAlertText]
  · simp [addNoteResponse, hb, reloads_showAlertText]
  · obtain ⟨message, hm⟩ := get?_some_of_some result "success" "message" success hs
    simp only [addNoteResponse, hb, hs, hm, ht]
    rcases hshow : showAlert numStr (message.or (.str "Failed to add note")) "danger"
      with _ | shown
    · simp [reloads_showAlertText]
    · simpa using reloads_showAlert _ _ _ _ hshow

/-- The same for the edit flow. -/
theorem editNoteResponse_no_reload (numStr : Nat → String) (modal : Bool) (net : FetchResult)
    (hfail : (∃ m, net = .rejected m) ∨
      (∃ r, net = .response r ∧
        ((∃ m, r.body = .error m) ∨
         (∃ result success, r.body = .ok result ∧ result.get? "success" = some success ∧
            success.truthy = false)))) :
    reloads (editNoteResponse numStr modal net) = [] := by
  rcases hfail with ⟨m, rfl⟩ | ⟨r, rfl, ⟨m, hb⟩ | ⟨result, success, hb, hs, ht⟩⟩
  · simp [editNoteResponse, reloads_showAlertText]
  · simp [editNoteResponse, hb, reloads_showAlertText]
  · obtain ⟨message, hm⟩ := get?_some_of_some result "success" "message" success hs
    simp only [editNoteResponse, hb, hs, hm, ht]
    rcases hshow : showAlert numStr (message.or (.str "Failed to update note")) "danger"
      with _ | shown
    · simp [reloads_showAlertText]
    · simpa using reloads_showAlert _ _ _ _ hshow

/-- The response part of the delete flow schedules no reload when the request throws,
when `response.json()` throws, when the status is not OK, or when the parsed body's
`success` is falsy. -/
theorem deleteNoteResponse_no_reload (numStr : Nat → String) (net : FetchResult)
    (hfail : (∃ m, net = .rejected m) ∨
      (∃ r, net = .response r ∧
        ((∃ m, r.body = .error m) ∨ r.ok = false ∨
         (∃ result success, r.body = .ok result ∧ result.get? "success" = some success ∧
            success.truthy = false)))) :
    reloads (deleteNoteResponse numStr net) = [] := by
  have key : ∀ (r : Response) (result : JVal), r.body = .ok result →
      (if r.ok = true then Option.map JVal.truthy (result.get? "success") else some false)
        ≠ some true →
      reloads (deleteNoteResponse numStr (.response r)) = [] := by
    intro r result hb hc
    simp only [deleteNoteResponse, hb]
    split
    · next h _ => exact absurd h hc
    · next message _ _ =>
      rcases hshow : showAlert numStr (message.or (.str "Failed to delete note")) "danger"
        with _ | shown
      · simp [reloads_showAlertText]
      · simpa using reloads_showAlert _ _ _ _ hshow
    · simp [reloads_showAlertText]
  rcases hfail with ⟨m, rfl⟩ | ⟨r, rfl, ⟨m, hb⟩ | hok | ⟨result, success, hb, hs, ht⟩⟩
  · simp [deleteNoteResponse, reloads_showAlertText]
  · simp [deleteNoteResponse, hb, reloads_showAlertText]
  · rcases hb : r.body with m | result
    · simp [deleteNoteResponse, hb, reloads_showAlertText]
    · exact key r result hb (by simp [hok])
  · exact key r result hb (by cases hok : r.ok <;> simp [hs, ht])

/-- No flow schedules a reload when the request throws, when `response.json()` throws, or
when the parsed body's `success` is falsy; the delete flow schedules none either when the
status is not OK. -/
theorem failed_response_no_reload (numStr : Nat → String) (noteId title : String)
    (submitBtn : Option Button) (modal : Bool) (noteRef : JVal) (confirmed : Bool)
    (net : FetchResult)
    (hfail : (∃ m, net = .rejected m) ∨
      (∃ r, net = .response r ∧
        ((∃ m, r.body = .error m) ∨
         (∃ result success, r.body = .ok result ∧ result.get? "success" = some success ∧
            success.truthy = false)))) :
    reloads (addNoteSubmit numStr title submitBtn modal net).trace = [] ∧
    reloads (editNoteSubmit numStr noteId title submitBtn modal net).trace = [] ∧
    reloads (deleteNote numStr noteRef confirmed net) = [] := by
  have hadd := addNoteResponse_no_reload numStr modal net hfail
  have hedit := editNoteResponse_no_reload numStr modal net hfail
  have hdel : reloads (deleteNoteResponse numStr net) = [] := by
    apply deleteNoteResponse_no_reload
    rcases hfail with h | ⟨r, hr, h | h⟩
    · exact Or.inl h
    · exact Or.inr ⟨r, hr, Or.inl h⟩
    · exact Or.inr ⟨r, hr, Or.inr (Or.inr h)⟩
  refine ⟨?_, ?_, ?_⟩
  · unfold addNoteSubmit
    split
    · simp [reloads, showAlertText]
    · simp only [reloads_append, hadd]; simp [reloads]
  · unfold editNoteSubmit
    split
    · simp [reloads, showAlertText]
    · simp only [reloads_append, hedit]; simp [reloads]
  · unfold deleteNote
    split
    · simp [reloads]
    · split
      · exact reloads_showAlertText _ _
      · simp only [reloads_append, hdel]; simp [reloads]

/-- The delete flow schedules no reload when the HTTP status is not OK, whatever the
body. -/
theorem delete_http_error_no_reload (numStr : Nat → String) (noteRef : JVal)
    (confirmed : Bool) (r : Response) (hok : r.ok = false) :
    reloads (deleteNote numStr noteRef confirmed (.response r)) = [] := by
  have hdel := deleteNoteResponse_no_reload numStr (.response r)
    (Or.inr ⟨r, rfl, Or.inr (Or.inl hok)⟩)
  unfold deleteNote
  split
  · simp [reloads]
  · split
    · exact reloads_showAlertText _ _
    · simp only [reloads_append, hdel]; simp [reloads]

/-- C7: when the server reports failure (a parsed body with falsy `success`; for the
delete flow also any parsed body under a status that is not OK), exactly one notification
is shown, whatever the message: an alert of class `alert-danger`. For every message that
converts to a string its markup carries that string when the message is truthy and the
flow's default otherwise; so a non-empty string message is shown as it is, and a missing,
`null` or empty one gives `Failed to add note`, `Failed to update note`,
`Failed to delete note`. -/
theorem server_failure_message (numStr : Nat → String) (noteId title : String)
    (submitBtn : Option Button) (modal : Bool) (noteRef : JVal)
    (r : Response) (result success message : JVal)
    (htitle : jsTrim title ≠ "") (hbody : r.body = .ok result)
    (hsuccess : result.get? "success" = some success)
    (hmessage : result.get? "message" = some message) :
    (success.truthy = false →
      (∃ text, (notifications (addNoteSubmit numStr title submitBtn modal (.response r)).trace).map (fun el => (el.className, el.innerHTML)) =
         [("alert alert-danger alert-dismissible fade show position-fixed top-0 start-50 translate-middle-x mt-3",
           "\n        " ++ text ++
           "\n        <button type=\"button\" class=\"btn-close\" data-bs-dismiss=\"alert\"></button>\n    ")]) ∧
      (∀ text, message.toStr? numStr = some text →
        (notifications (addNoteSubmit numStr title submitBtn modal (.response r)).trace).map (fun el => (el.className, el.innerHTML)) =
          [("alert alert-danger alert-dismissible fade show position-fixed top-0 start-50 translate-middle-x mt-3",
            "\n        " ++ (if message.truthy = true then text else "Failed to add note") ++
            "\n        <button type=\"button\" class=\"btn-close\" data-bs-dismiss=\"alert\"></button>\n    ")]) ∧
      (∀ s, message = .str s → s ≠ "" →
        (notifications (addNoteSubmit numStr title submitBtn modal (.response r)).trace).map (fun el => (el.className, el.innerHTML)) =
          [("alert alert-danger alert-dismissible fade show position-fixed top-0 start-50 translate-middle-x mt-3",
            "\n        " ++ s ++
            "\n        <button type=\"button\" class=\"btn-close\" data-bs-dismiss=\"alert\"></button>\n    ")]) ∧
      (message = .undefined ∨ message = .null ∨ message = .str "" →
        (notifications (addNoteSubmit numStr title submitBtn modal (.response r)).trace).map (fun el => (el.className, el.innerHTML)) =
          [("alert alert-danger alert-dismissible fade show position-fixed top-0 start-50 translate-middle-x mt-3",
            "\n        " ++ "Failed to add note" ++
            "\n        <button type=\"button\" class=\"btn-close\" data-bs-dismiss=\"alert\"></button>\n    ")])) ∧
    (success.truthy = false →
      (∃ text, (notifications (editNoteSubmit numStr noteId title submitBtn modal (.response r)).trace).map (fun el => (el.className, el.innerHTML)) =
         [("alert alert-danger alert-dismissible fade show position-fixed top-0 start-50 translate-middle-x mt-3",
           "\n        " ++ text ++
           "\n        <button type=\"button\" class=\"btn-close\" data-bs-dismiss=\"alert\"></button>\n    ")]) ∧
      (∀ text, message.toStr? numStr = some text →
        (notifications (editNoteSubmit numStr noteId title submitBtn modal (.response r)).trace).map (fun el => (el.className, el.innerHTML)) =
          [("alert alert-danger alert-dismissible fade show position-fixed top-0 start-50 translate-middle-x mt-3",
            "\n        " ++ (if message.truthy = true then text else "Failed to update note") ++
            "\n        <button type=\"button\" class=\"btn-close\" data-bs-dismiss=\"alert\"></button>\n    ")]) ∧
      (∀ s, message = .str s → s ≠ "" →
        (notifications (editNoteSubmit numStr noteId title submitBtn modal (.response r)).trace).map (fun el => (el.className, el.innerHTML)) =
          [("alert alert-danger alert-dismissible fade show position-fixed top-0 start-50 translate-middle-x mt-3",
            "\n        " ++ s ++
            "\n        <button type=\"button\" class=\"btn-close\" data-bs-dismiss=\"alert\"></button>\n    ")]) ∧
      (message = .undefined ∨ message = .null ∨ message = .str "" →
        (notifications (editNoteSubmit numStr noteId title submitBtn modal (.response r)).trace).map (fun el => (el.className, el.innerHTML)) =
          [("alert alert-danger alert-dismissible fade show position-fixed top-0 start-50 translate-middle-x mt-3",
            "\n        " ++ "Failed to update note" ++
            "\n        <button type=\"button\" class=\"btn-close\" data-bs-dismiss=\"alert\"></button>\n    ")])) ∧
    (r.ok = false ∨ success.truthy = false →
      ∀ idText, noteRef.toStr? numStr = some idText →
        (∃ text, (notifications (deleteNote numStr noteRef true (.response r))).map (fun el => (el.className, el.innerHTML)) =
           [("alert alert-danger alert-dismissible fade show position-fixed top-0 start-50 translate-middle-x mt-3",
             "\n        " ++ text ++
             "\n        <button type=\"button\" class=\"btn-close\" data-bs-dismiss=\"alert\"></button>\n    ")]) ∧
        (∀ text, message.toStr? numStr = some text →
          (notifications (deleteNote numStr noteRef true (.response r))).map (fun el => (el.className, el.innerHTML)) =
            [("alert alert-danger alert-dismissible fade show position-fixed top-0 start-50 translate-middle-x mt-3",
              "\n        " ++ (if message.truthy = true then text else "Failed to delete note") ++
              "\n        <button type=\"button\" class=\"btn-close\" data-bs-dismiss=\"alert\"></button>\n    ")]) ∧
        (∀ s, message = .str s → s ≠ "" →
          (notifications (deleteNote numStr noteRef true (.response r))).map (fun el => (el.className, el.innerHTML)) =
            [("alert alert-danger alert-dismissible fade show position-fixed top-0 start-50 translate-middle-x mt-3",
              "\n        " ++ s ++
              "\n        <button type=\"button\" class=\"btn-close\" data-bs-dismiss=\"alert\"></button>\n    ")]) ∧
        (message = .undefined ∨ message = .null ∨ message = .str "" →
          (notifications (deleteNote numStr noteRef true (.response r))).map (fun el => (el.className, el.innerHTML)) =
            [("alert alert-danger alert-dismissible fade show position-fixed top-0 start-50 translate-middle-x mt-3",
              "\n        " ++ "Failed to delete note" ++
              "\n        <button type=\"button\" class=\"btn-close\" data-bs-dismiss=\"alert\"></button>\n    ")])) := by
  have hcond : (r.ok = false ∨ success.truthy = false) →
      (if r.ok = true then Option.map JVal.truthy (result.get? "success") else some false)
        = some false := by
    intro h
    rcases h with h | h
    · simp [h]
    · simp [hsuccess, h]
  refine ⟨fun hf => ?_, fun hf => ?_, fun hf idText hid => ?_⟩
  · have hgen : ∀ text, message.toStr? numStr = some text →
        (notifications (addNoteSubmit numStr title submitBtn modal (.response r)).trace).map (fun el => (el.className, el.innerHTML)) =
          [("alert alert-danger alert-dismissible fade show position-fixed top-0 start-50 translate-middle-x mt-3",
            "\n        " ++ (if message.truthy = true then text else "Failed to add note") ++
            "\n        <button type=\"button\" class=\"btn-close\" data-bs-dismiss=\"alert\"></button>\n    ")] := by
      intro text htext
      simp [addNoteSubmit, addNoteResponse, htitle, hbody, hsuccess, hmessage, hf,
        showAlert_or numStr message text _ _ htext, notifications, showAlertText, alertElement]
    refine ⟨?_, hgen, ?_, ?_⟩
    · rcases hconv : message.toStr? numStr with _ | text
      · exact ⟨"An error occurred while adding the note. Please try again.", by
          simp [addNoteSubmit, addNoteResponse, htitle, hbody, hsuccess, hmessage, hf,
            showAlert_or_none numStr message _ _ hconv, notifications, showAlertText,
            alertElement]⟩
      · exact ⟨_, hgen text hconv⟩
    · rintro s rfl hs
      simpa [JVal.truthy, hs] using hgen s (toStr?_str numStr s)
    · rintro (rfl | rfl | rfl)
      · simpa [JVal.truthy] using hgen "undefined" (by simp [JVal.toStr?])
      · simpa [JVal.truthy] using hgen "null" (by simp [JVal.toStr?])
      · simpa [JVal.truthy] using hgen "" (toStr?_str numStr "")
  · have hgen : ∀ text, message.toStr? numStr = some text →
        (notifications (editNoteSubmit numStr noteId title submitBtn modal (.response r)).trace).map (fun el => (el.className, el.innerHTML)) =
          [("alert alert-danger alert-dismissible fade show position-fixed top-0 start-50 translate-middle-x mt-3",
            "\n        " ++ (if message.truthy = true then text else "Failed to update note") ++
            "\n        <button type=\"button\" class=\"btn-close\" data-bs-dismiss=\"alert\"></button>\n    ")] := by
      intro text htext
      simp [editNoteSubmit, editNoteResponse, htitle, hbody, hsuccess, hmessage, hf,
        showAlert_or numStr message text _ _ htext, notifications, showAlertText, alertElement]
    refine ⟨?_, hgen, ?_, ?_⟩
    · rcases hconv : message.toStr? numStr with _ | text
      · exact ⟨"An error occurred while updating the note. Please try again.", by
          simp [editNoteSubmit, editNoteResponse, htitle, hbody, hsuccess, hmessage, hf,
            showAlert_or_none numStr message _ _ hconv, notifications, showAlertText,
            alertElement]⟩
      · exact ⟨_, hgen text hconv⟩
    · rintro s rfl hs
      simpa [JVal.truthy, hs] using hgen s (toStr?_str numStr s)
    · rintro (rfl | rfl | rfl)
      · simpa [JVal.truthy] using hgen "undefined" (by simp [JVal.toStr?])
      · simpa [JVal.truthy] using hgen "null" (by simp [JVal.toStr?])
      · simpa [JVal.truthy] using hgen "" (toStr?_str numStr "")
  · have hgen : ∀ text, message.toStr? numStr = some text →
        (notifications (deleteNote numStr noteRef true (.response r))).map (fun el => (el.className, el.innerHTML)) =
          [("alert alert-danger alert-dismissible fade show position-fixed top-0 start-50 translate-middle-x mt-3",
            "\n        " ++ (if message.truthy = true then text else "Failed to delete note") ++
            "\n        <button type=\"button\" class=\"btn-close\" data-bs-dismiss=\"alert\"></button>\n    ")] := by
      intro text htext
      simp [deleteNote, deleteNoteResponse, hid, hbody, hmessage, hcond hf,
        showAlert_or numStr message text _ _ htext, notifications, showAlertText, alertElement]
    refine ⟨?_, hgen, ?_, ?_⟩
    · rcases hconv : message.toStr? numStr with _ | text
      · exact ⟨"An error occurred while deleting the note. Please try again.", by
          simp [deleteNote, deleteNoteResponse, hid, hbody, hmessage, hcond hf,
            showAlert_or_none numStr message _ _ hconv, notifications, showAlertText,
            alertElement]⟩
      · exact ⟨_, hgen text hconv⟩
    · rintro s rfl hs
      simpa [JVal.truthy, hs] using hgen s (toStr?_str numStr s)
    · rintro (rfl | rfl | rfl)
      · simpa [JVal.truthy] using hgen "undefined" (by simp [JVal.toStr?])
      · simpa [JVal.truthy] using hgen "null" (by simp [JVal.toStr?])
      · simpa [JVal.truthy] using hgen "" (toStr?_str numStr "")

/-- C7 at the body `success: false, message: "Title is required"`: the add flow shows that
message in a danger alert. -/
theorem server_failure_message_witness :
    jsTrim "A" ≠ "" ∧
    (Response.mk true 0x4069000000000000 (.ok (JVal.obj [("success", .bool false), ("message", .str "Title is required")]))).body = .ok (JVal.obj [("success", .bool false), ("message", .str "Title is required")]) ∧
    (JVal.obj [("success", .bool false), ("message", .str "Title is required")]).get? "success" = some (.bool false) ∧
    (JVal.obj [("success", .bool false), ("message", .str "Title is required")]).get? "message" = some (.str "Title is required") ∧
    (JVal.bool false).truthy = false ∧
    (notifications (addNoteSubmit (fun _ => "") "A" none false
        (.response (Response.mk true 0x4069000000000000 (.ok (JVal.obj [("success", .bool false), ("message", .str "Title is required")]))))).trace).map (fun el => (el.className, el.innerHTML)) =
      [("alert alert-danger alert-dismissible fade show position-fixed top-0 start-50 translate-middle-x mt-3",
        "\n        " ++ "Title is required" ++
        "\n        <button type=\"button\" class=\"btn-close\" data-bs-dismiss=\"alert\"></button>\n    ")] :=
  ⟨by decide, rfl, rfl, rfl, rfl,
   ((server_failure_message (fun _ => "") "7" "A" none false (.str "7") (Response.mk true 0x4069000000000000 (.ok (JVal.obj [("success", .bool false), ("message", .str "Title is required")]))) (JVal.obj [("success", .bool false), ("message", .str "Title is required")]) (.bool false)
      (.str "Title is required") (by decide) rfl rfl rfl).1 rfl).2.2.1
      "Title is required" rfl (by decide)⟩

/-! ## Viewing a note -/

/-- C6: for every note returned with status OK whose content is empty and whose
`image_filename` is `null`, `viewNote` writes `note.title` into the view title (a string
title as it is), the `No content` placeholder into the content area, and the empty
string into the image area; when the two dates convert to strings as well, no alert is
shown. The note id and the title are values whose string conversion does not throw. -/
theorem view_empty_note (numStr : Nat → String) (noteId : JVal) (r : Response)
    (note title : JVal) (idText titleText : String)
    (hid : noteId.toStr? numStr = some idText)
    (hok : r.ok = true) (hbody : r.body = .ok note)
    (htitle : note.get? "title" = some title)
    (htitleText : title.toDomText? numStr = some titleText)
    (hcontent : note.get? "content" = some (.str ""))
    (himage : note.get? "image_filename" = some .null) :
    textWrites "viewNoteTitle" (viewNote numStr noteId (.response r)) = [titleText] ∧
    (∀ t, title = .str t → titleText = t) ∧
    htmlWrites "viewNoteContent" (viewNote numStr noteId (.response r)) =
      ["<em class=\"text-muted\">No content</em>"] ∧
    htmlWrites "viewNoteImage" (viewNote numStr noteId (.response r)) = [""] ∧
    (∀ created updated createdText updatedText,
      note.get? "created_at" = some created → created.toStr? numStr = some createdText →
      note.get? "updated_at" = some updated → updated.toStr? numStr = some updatedText →
      notifications (viewNote numStr noteId (.response r)) = []) := by
  obtain ⟨created, hcreated⟩ := get?_some_of_some note "title" "created_at" title htitle
  obtain ⟨updated, hupdated⟩ := get?_some_of_some note "title" "updated_at" title htitle
  refine ⟨?_, ?_, ?_, ?_, ?_⟩
  · rcases hc : created.toStr? numStr with _ | createdText <;>
      rcases hu : updated.toStr? numStr with _ | updatedText <;>
      simp [viewNote, viewNoteSteps, runSteps, hid, hok, hbody, htitle, htitleText, hcontent,
        himage, hcreated, hupdated, hc, hu, textWrites, showAlertText, JVal.truthy]
  · rintro t rfl
    simpa [JVal.toDomText?, JVal.toStr?] using htitleText.symm
  · rcases hc : created.toStr? numStr with _ | createdText <;>
      rcases hu : updated.toStr? numStr with _ | updatedText <;>
      simp [viewNote, viewNoteSteps, runSteps, hid, hok, hbody, htitle, htitleText, hcontent,
        himage, hcreated, hupdated, hc, hu, htmlWrites, showAlertText, JVal.truthy]
  · rcases hc : created.toStr? numStr with _ | createdText <;>
      rcases hu : updated.toStr? numStr with _ | updatedText <;>
      simp [viewNote, viewNoteSteps, runSteps, hid, hok, hbody, htitle, htitleText, hcontent,
        himage, hcreated, hupdated, hc, hu, htmlWrites, showAlertText, JVal.truthy]
  · intro created2 updated2 createdText updatedText h1 h2 h3 h4
    simp [viewNote, viewNoteSteps, runSteps, hid, hok, hbody, htitle, htitleText, hcontent,
      himage, h1, h2, h3, h4, notifications, JVal.truthy]

/-- C6 at the note `id: 42, title: "A", content: "", image_filename: null`. -/
theorem view_empty_note_witness :
    (JVal.num 0x4045000000000000).toStr? (fun _ => "42") = some "42" ∧
    (Response.mk true 0x4069000000000000 (.ok (JVal.obj [("id", .num 0x4045000000000000), ("title", .str "A"), ("content", .str ""), ("image_filename", .null), ("created_at", .str "2024-01-01"), ("updated_at", .str "2024-01-02")]))).ok = true ∧
    (Response.mk true 0x4069000000000000 (.ok (JVal.obj [("id", .num 0x4045000000000000), ("title", .str "A"), ("content", .str ""), ("image_filename", .null), ("created_at", .str "2024-01-01"), ("updated_at", .str "2024-01-02")]))).body = .ok (JVal.obj [("id", .num 0x4045000000000000), ("title", .str "A"), ("content", .str ""), ("image_filename", .null), ("created_at", .str "2024-01-01"), ("updated_at", .str "2024-01-02")]) ∧
    (JVal.obj [("id", .num 0x4045000000000000), ("title", .str "A"), ("content", .str ""), ("image_filename", .null), ("created_at", .str "2024-01-01"), ("updated_at", .str "2024-01-02")]).get? "title" = some (.str "A") ∧
    (JVal.str "A").toDomText? (fun _ => "42") = some "A" ∧
    (JVal.obj [("id", .num 0x4045000000000000), ("title", .str "A"), ("content", .str ""), ("image_filename", .null), ("created_at", .str "2024-01-01"), ("updated_at", .str "2024-01-02")]).get? "content" = some (.str "") ∧
    (JVal.obj [("id", .num 0x4045000000000000), ("title", .str "A"), ("content", .str ""), ("image_filename", .null), ("created_at", .str "2024-01-01"), ("updated_at", .str "2024-01-02")]).get? "image_filename" = some .null ∧
    textWrites "viewNoteTitle" (viewNote (fun _ => "42") (.num 0x4045000000000000)
      (.response (Response.mk true 0x4069000000000000 (.ok (JVal.obj [("id", .num 0x4045000000000000), ("title", .str "A"), ("content", .str ""), ("image_filename", .null), ("created_at", .str "2024-01-01"), ("updated_at", .str "2024-01-02")]))))) = ["A"] ∧
    (∀ t, JVal.str "A" = .str t → "A" = t) ∧
    htmlWrites "viewNoteContent" (viewNote (fun _ => "42") (.num 0x4045000000000000)
      (.response (Response.mk true 0x4069000000000000 (.ok (JVal.obj [("id", .num 0x4045000000000000), ("title", .str "A"), ("content", .str ""), ("image_filename", .null), ("created_at", .str "2024-01-01"), ("updated_at", .str "2024-01-02")]))))) = ["<em class=\"text-muted\">No content</em>"] ∧
    htmlWrites "viewNoteImage" (viewNote (fun _ => "42") (.num 0x4045000000000000)
      (.response (Response.mk true 0x4069000000000000 (.ok (JVal.obj [("id", .num 0x4045000000000000), ("title", .str "A"), ("content", .str ""), ("image_filename", .null), ("created_at", .str "2024-01-01"), ("updated_at", .str "2024-01-02")]))))) = [""] ∧
    (∀ created updated createdText updatedText,
      (JVal.obj [("id", .num 0x4045000000000000), ("title", .str "A"), ("content", .str ""), ("image_filename", .null), ("created_at", .str "2024-01-01"), ("updated_at", .str "2024-01-02")]).get? "created_at" = some created →
      created.toStr? (fun _ => "42") = some createdText →
      (JVal.obj [("id", .num 0x4045000000000000), ("title", .str "A"), ("content", .str ""), ("image_filename", .null), ("created_at", .str "2024-01-01"), ("updated_at", .str "2024-01-02")]).get? "updated_at" = some updated →
      updated.toStr? (fun _ => "42") = some updatedText →
      notifications (viewNote (fun _ => "42") (.num 0x4045000000000000)
        (.response (Response.mk true 0x4069000000000000 (.ok (JVal.obj [("id", .num 0x4045000000000000), ("title", .str "A"), ("content", .str ""), ("image_filename", .null), ("created_at", .str "2024-01-01"), ("updated_at", .str "2024-01-02")]))))) = []) :=
  ⟨toStr?_num _ _, rfl, rfl, rfl, by simp [JVal.toDomText?, JVal.toStr?], rfl, rfl,
   view_empty_note (fun _ => "42") (.num 0x4045000000000000) (Response.mk true 0x4069000000000000 (.ok (JVal.obj [("id", .num 0x4045000000000000), ("title", .str "A"), ("content", .str ""), ("image_filename", .null), ("created_at", .str "2024-01-01"), ("updated_at", .str "2024-01-02")]))) (JVal.obj [("id", .num 0x4045000000000000), ("title", .str "A"), ("content", .str ""), ("image_filename", .null), ("created_at", .str "2024-01-01"), ("updated_at", .str "2024-01-02")]) (.str "A") "42" "A"
     (toStr?_num _ _) rfl rfl rfl (by simp [JVal.toDomText?, JVal.toStr?]) rfl rfl⟩

/-! ## Deleting a note -/

/-- C8: for every note id, `deleteNote` with the prompt declined issues no request, shows
no notification and schedules no reload; with the prompt accepted, for an id that
converts to a string (every string and every number does), it issues exactly one
request, a POST to `/delete_note/` followed by the id. -/
theorem delete_only_on_confirmation (numStr : Nat → String) (noteId : JVal)
    (net : FetchResult) :
    (requests (deleteNote numStr noteId false net) = [] ∧
     notifications (deleteNote numStr noteId false net) = [] ∧
     reloads (deleteNote numStr noteId false net) = []) ∧
    (∀ idText, noteId.toStr? numStr = some idText →
      requests (deleteNote numStr noteId true net) =
        [("/delete_note/" ++ idText,
          .obj [("method", .str "POST"),
                ("headers", .obj [("Content-Type", .str "application/json")])])]) ∧
    (∀ s, (JVal.str s).toStr? numStr = some s) ∧
    (∀ bits, (JVal.num bits).toStr? numStr = some (numStr bits)) := by
  refine ⟨by simp [deleteNote, requests, notifications, reloads], ?_, toStr?_str numStr,
    toStr?_num numStr⟩
  intro idText hid
  have hrun : deleteNote numStr noteId true net =
      [.fetch ("/delete_note/" ++ idText)
        (.obj [("method", .str "POST"),
               ("headers", .obj [("Content-Type", .str "application/json")])])] ++
      deleteNoteResponse numStr net := by
    simp [deleteNote, hid]
  rw [hrun, requests_append, requests_deleteNoteResponse]
  simp [requests]

/-- C8 at the id `"7"`, with the request failing in transport. -/
theorem delete_only_on_confirmation_witness :
    (JVal.str "7").toStr? (fun _ => "") = some "7" ∧
    requests (deleteNote (fun _ => "") (.str "7") true (.rejected "offline")) =
      [("/delete_note/" ++ "7",
        .obj [("method", .str "POST"),
              ("headers", .obj [("Content-Type", .str "application/json")])])] :=
  ⟨toStr?_str _ _,
   (delete_only_on_confirmation (fun _ => "") (.str "7") (.rejected "offline")).2.1 "7"
     (toStr?_str _ _)⟩

/-! ## `submitForm` -/

/-- C9, the code at the failing input: when the caller passes no options, or options
without headers, `makeRequest` puts its default headers back, and the options handed to
`fetch` carry `Content-Type: application/json` next to the `FormData` body. -/
theorem submitForm_sends_json_content_type (form url : String) (net : FetchResult) :
    (submitForm form url .undefined net).1 =
      [.fetch url (.obj [("headers", .obj [("Content-Type", .str "application/json")]),
                         ("method", .str "POST"), ("body", .formData form)])] ∧
    (submitForm form url (.obj []) net).1 =
      [.fetch url (.obj [("headers", .obj [("Content-Type", .str "application/json")]),
                         ("method", .str "POST"), ("body", .formData form)])] ∧
    (JVal.obj [("headers", .obj [("Content-Type", .str "application/json")]),
               ("method", .str "POST"), ("body", .formData form)]).get? "headers" =
      some (.obj [("Content-Type", .str "application/json")]) ∧
    (JVal.obj [("Content-Type", .str "application/json")]).get? "Content-Type" =
      some (.str "application/json") := by
  simp [submitForm, makeRequest, JVal.spread, JVal.ownEntries, JVal.setKey, JVal.get?,
    List.lookup]

/-- When the caller does pass a headers object, the options handed to `fetch` carry that
object without its `Content-Type` key. -/
theorem submitForm_strips_given_headers (form url : String) (net : FetchResult)
    (hs : List (String × JVal)) :
    (submitForm form url (.obj [("headers", .obj hs)]) net).1 =
      [.fetch url (.obj [("headers", .obj (hs.filter (fun p => p.1 != "Content-Type"))),
                         ("method", .str "POST"), ("body", .formData form)])] := by
  simp [submitForm, makeRequest, JVal.spread, JVal.ownEntries, JVal.setKey, JVal.get?,
    List.lookup, JVal.truthy, JVal.deleteKey]

/-! ## The size ceiling -/

/-- C10 as stated fails: a PNG of exactly 16 * 1024 * 1024 bytes is accepted; its read
starts, the input keeps its value, and no alert is shown. -/
theorem exact_ceiling_accepted :
    fileReads (previewImage
      { files := [{ name := "a.png", type := "image/png", size := 16 * 1024 * 1024 }],
        value := "a.png" } "addImagePreview" [] none).trace =
      [{ name := "a.png", type := "image/png", size := 16 * 1024 * 1024 }] ∧
    (previewImage
      { files := [{ name := "a.png", type := "image/png", size := 16 * 1024 * 1024 }],
        value := "a.png" } "addImagePreview" [] none).input.value = "a.png" ∧
    notifications (previewImage
      { files := [{ name := "a.png", type := "image/png", size := 16 * 1024 * 1024 }],
        value := "a.png" } "addImagePreview" [] none).trace = [] ∧
    ¬ ((File.mk "a.png" "image/png" (16 * 1024 * 1024)).size < 16 * 1024 * 1024) := by
  simp [previewImage, allowedTypes, maxSize, fileReads, notifications]

/-- C10, amended: every file whose read `previewImage` starts has an allowed type and a
size of at most 16 * 1024 * 1024 bytes, and a file of an allowed type and of exactly that
size is accepted: its read starts, the input is left as it was, no alert is shown. -/
theorem accepted_size_le (input : FileInput)
    (previewId : String) (preview : List PreviewChild) (loaded : Option String)
    (file : File) (rest : List File) (hfile : input.files = file :: rest) :
    (fileReads (previewImage input previewId preview loaded).trace ≠ [] →
      file.type ∈ allowedTypes ∧ file.size ≤ 16 * 1024 * 1024) ∧
    (file.type ∈ allowedTypes → file.size = 16 * 1024 * 1024 →
      fileReads (previewImage input previewId preview loaded).trace = [file] ∧
      (previewImage input previewId preview loaded).input = input ∧
      notifications (previewImage input previewId preview loaded).trace = []) := by
  constructor
  · intro h
    by_cases ht : file.type ∈ allowedTypes
    · refine ⟨ht, ?_⟩
      by_contra hs
      have h2 : maxSize < file.size := by
        have : maxSize = 16 * 1024 * 1024 := rfl
        omega
      exact h (by simp [previewImage, hfile, ht, h2, showAlertText, fileReads])
    · exact absurd (by simp [previewImage, hfile, ht, showAlertText, fileReads]) h
  · intro ht hs
    have h2 : ¬ maxSize < file.size := by
      have : maxSize = 16 * 1024 * 1024 := rfl
      omega
    simp [previewImage, hfile, ht, h2, fileReads, notifications]

/-- C10, amended, at a GIF of 16 * 1024 * 1024 bytes. -/
theorem accepted_size_le_witness :
    (FileInput.mk [File.mk "b.gif" "image/gif" 16777216] "b.gif").files =
      File.mk "b.gif" "image/gif" 16777216 :: [] ∧
    (fileReads (previewImage
        (FileInput.mk [File.mk "b.gif" "image/gif" 16777216] "b.gif")
        "editImagePreview" [] none).trace ≠ [] →
      (File.mk "b.gif" "image/gif" 16777216).type ∈ allowedTypes ∧
      (File.mk "b.gif" "image/gif" 16777216).size ≤ 16 * 1024 * 1024) ∧
    ((File.mk "b.gif" "image/gif" 16777216).type ∈ allowedTypes →
      (File.mk "b.gif" "image/gif" 16777216).size = 16 * 1024 * 1024 →
      fileReads (previewImage
        (FileInput.mk [File.mk "b.gif" "image/gif" 16777216] "b.gif")
        "editImagePreview" [] none).trace = [File.mk "b.gif" "image/gif" 16777216] ∧
      (previewImage
        (FileInput.mk [File.mk "b.gif" "image/gif" 16777216] "b.gif")
        "editImagePreview" [] none).input =
        FileInput.mk [File.mk "b.gif" "image/gif" 16777216] "b.gif" ∧
      notifications (previewImage
        (FileInput.mk [File.mk "b.gif" "image/gif" 16777216] "b.gif")
        "editImagePreview" [] none).trace = []) :=
  ⟨rfl,
   accepted_size_le
     (FileInput.mk [File.mk "b.gif" "image/gif" 16777216] "b.gif")
     "editImagePreview" [] none (File.mk "b.gif" "image/gif" 16777216) [] rfl⟩

/-! ## Escaping of the note content -/

/-- On a string, `escapeHtml` does not throw and escapes character by character. -/
theorem escapeHtml_str (numStr : Nat → String) (s : String) :
    escapeHtml numStr (.str s) = some (escapeText s) := by
  simp [escapeHtml, JVal.toDomText?, JVal.toStr?]

/-- No character written for a character is an angle bracket. -/
theorem escapeChar_no_angle (a c : Char) (h : c ∈ escapeChar a) : c ≠ '<' ∧ c ≠ '>' := by
  unfold escapeChar at h
  split_ifs at h with h1 h2 h3 h4
  · simp at h
    rcases h with rfl | rfl | rfl | rfl | rfl <;> decide
  · simp at h
    rcases h with rfl | rfl | rfl | rfl | rfl | rfl <;> decide
  · simp at h
    rcases h with rfl | rfl | rfl | rfl <;> decide
  · simp at h
    rcases h with rfl | rfl | rfl | rfl <;> decide
  · simp at h
    subst h
    exact ⟨h3, h4⟩

/-- Passing over a whole entity body resumes decoding right after it. -/
theorem decodeFrom_skip (table : List (String × Char)) (body rest : List Char) :
    decodeFrom table body.length (body ++ rest) = decodeFrom table 0 rest := by
  induction body with
  | nil => simp
  | cons b body ih => simpa [decodeFrom] using ih

/-- A character that is not `&` decodes to itself. -/
theorem decodeFrom_plain (table : List (String × Char)) (c : Char) (rest : List Char)
    (h : c ≠ '&') : decodeFrom table 0 (c :: rest) = c :: decodeFrom table 0 rest := by
  simp [decodeFrom, h]

/-- Decoding what one character is escaped to gives the character back. -/
theorem decodeFrom_escapeChar (c : Char) (rest : List Char) :
    decodeFrom writtenEntities 0 (escapeChar c ++ rest) =
      c :: decodeFrom writtenEntities 0 rest := by
  unfold escapeChar
  split_ifs with h1 h2 h3 h4
  · subst h1
    have h := decodeFrom_skip writtenEntities "amp;".data rest
    simp [decodeFrom, writtenEntities, List.find?, List.isPrefixOf] at h ⊢
  · have hc : c = Char.ofNat 0xA0 := by
      rw [← h2]; exact (Char.ofNat_toNat c).symm
    subst hc
    simp [decodeFrom, writtenEntities, List.find?, List.isPrefixOf]
  · subst h3
    simp [decodeFrom, writtenEntities, List.find?, List.isPrefixOf]
  · subst h4
    simp [decodeFrom, writtenEntities, List.find?, List.isPrefixOf]
  · simp [decodeFrom, h1]

/-- Decoding the escaped text gives the text back. -/
theorem decodeFrom_flatMap_escapeChar (l : List Char) :
    decodeFrom writtenEntities 0 (l.flatMap escapeChar) = l := by
  induction l with
  | nil => simp [decodeFrom]
  | cons c l ih => rw [List.flatMap_cons, decodeFrom_escapeChar, ih]

/-- What one character is escaped to has its `&`, if any, at the head of an entity. -/
theorem ampsBeginEntity_escapeChar (c : Char) (rest : List Char) :
    ampsBeginEntity ["amp;", "lt;", "gt;", "nbsp;"] (escapeChar c ++ rest) =
      ampsBeginEntity ["amp;", "lt;", "gt;", "nbsp;"] rest := by
  unfold escapeChar
  split_ifs with h1 h2 h3 h4
  · simp [ampsBeginEntity, List.isPrefixOf]
  · simp [ampsBeginEntity, List.isPrefixOf]
  · simp [ampsBeginEntity, List.isPrefixOf]
  · simp [ampsBeginEntity, List.isPrefixOf]
  · simp [ampsBeginEntity, h1]

/-- Every `&` of an escaped text begins one of the four entities. -/
theorem ampsBeginEntity_flatMap_escapeChar (l : List Char) :
    ampsBeginEntity ["amp;", "lt;", "gt;", "nbsp;"] (l.flatMap escapeChar) = true := by
  induction l with
  | nil => simp [ampsBeginEntity]
  | cons c l ih => rw [List.flatMap_cons, ampsBeginEntity_escapeChar, ih]

/-- C11 as stated fails: for the content `a`, no-break space, `b` the content area gets
`a&nbsp;b` inside the paragraph; its `&` begins none of `&amp;`, `&lt;`, `&gt;`, and
decoding those three entities does not give the content back. -/
theorem nbsp_escaped_as_fourth_entity :
    htmlWrites "viewNoteContent" (viewNote (fun _ => "") (.str "7") (.response (Response.mk true 0x4069000000000000 (.ok (JVal.obj [("title", .str "T"), ("content", .str (String.mk ['a', Char.ofNat 0xA0, 'b']))]))))) =
      ["<p style=\"white-space: pre-wrap;\">a&nbsp;b</p>"] ∧
    escapeHtml (fun _ => "") (.str (String.mk ['a', Char.ofNat 0xA0, 'b'])) =
      some "a&nbsp;b" ∧
    ampsBeginEntity ["amp;", "lt;", "gt;"] "a&nbsp;b".data = false ∧
    decodeEntities namedEntities "a&nbsp;b".data ≠ ['a', Char.ofNat 0xA0, 'b'] := by
  have h : escapeHtml (fun _ => "") (.str (String.mk ['a', Char.ofNat 0xA0, 'b'])) =
      some "a&nbsp;b" := by
    rw [escapeHtml_str]; decide
  refine ⟨?_, h, by decide, by decide⟩
  have hne : (String.mk ['a', Char.ofNat 0xA0, 'b'] != "") = true := by decide
  simp [viewNote, viewNoteSteps, runSteps, JVal.get?, List.lookup, htmlWrites, JVal.truthy,
    JVal.toStr?, JVal.toDomText?, h, hne, showAlertText]

/-- C11, amended: for every content string, whatever `viewNote` writes into the content
area is the placeholder when the string is empty and otherwise the paragraph around
`escapeHtml` of it, and it writes that once when the note is fetched with status OK under
an id that converts to a string and has a title that does; the escaped text has no `<`
and no `>`, every `&` in it begins one of `&amp;`, `&lt;`, `&gt;`, `&nbsp;`, and decoding
these four entities gives the content back. -/
theorem content_only_escaped (numStr : Nat → String) (noteId : JVal) (r : Response)
    (note : JVal) (s : String)
    (hbody : r.body = .ok note)
    (hcontent : note.get? "content" = some (.str s)) :
    (∀ html ∈ htmlWrites "viewNoteContent" (viewNote numStr noteId (.response r)),
      html = if s = "" then "<em class=\"text-muted\">No content</em>"
        else "<p style=\"white-space: pre-wrap;\">" ++ escapeText s ++ "</p>") ∧
    (∀ idText title titleText, noteId.toStr? numStr = some idText → r.ok = true →
      note.get? "title" = some title → title.toDomText? numStr = some titleText →
      htmlWrites "viewNoteContent" (viewNote numStr noteId (.response r)) =
        [if s = "" then "<em class=\"text-muted\">No content</em>"
         else "<p style=\"white-space: pre-wrap;\">" ++ escapeText s ++ "</p>"]) ∧
    escapeHtml numStr (.str s) = some (escapeText s) ∧
    (∀ c ∈ (escapeText s).data, c ≠ '<' ∧ c ≠ '>') ∧
    ampsBeginEntity ["amp;", "lt;", "gt;", "nbsp;"] (escapeText s).data = true ∧
    decodeEntities writtenEntities (escapeText s).data = s.data := by
  obtain ⟨title, htitle⟩ := get?_some_of_some note "content" "title" _ hcontent
  obtain ⟨image, himage⟩ := get?_some_of_some note "content" "image_filename" _ hcontent
  obtain ⟨created, hcreated⟩ := get?_some_of_some note "content" "created_at" _ hcontent
  obtain ⟨updated, hupdated⟩ := get?_some_of_some note "content" "updated_at" _ hcontent
  have hone : ∀ idText title titleText, noteId.toStr? numStr = some idText → r.ok = true →
      note.get? "title" = some title → title.toDomText? numStr = some titleText →
      htmlWrites "viewNoteContent" (viewNote numStr noteId (.response r)) =
        [if s = "" then "<em class=\"text-muted\">No content</em>"
         else "<p style=\"white-space: pre-wrap;\">" ++ escapeText s ++ "</p>"] := by
    intro idText title2 titleText hid hok htitle2 htitleText
    by_cases hs : s = "" <;>
      cases hit : image.truthy <;>
      rcases hi : image.toStr? numStr with _ | imageText <;>
      rcases hc : created.toStr? numStr with _ | createdText <;>
      rcases hu : updated.toStr? numStr with _ | updatedText <;>
      simp [viewNote, viewNoteSteps, runSteps, hid, hok, hbody, htitle2, htitleText, hcontent,
        himage, hcreated, hupdated, hit, hi, hc, hu, htmlWrites, showAlertText, truthy_str,
        escapeHtml_str, hs]
  refine ⟨?_, hone, escapeHtml_str numStr s, ?_, ?_, ?_⟩
  · intro html hmem
    rcases hid : noteId.toStr? numStr with _ | idText
    · simp [viewNote, hid, htmlWrites, showAlertText] at hmem
    · cases hok : r.ok
      · simp [viewNote, hid, hok, htmlWrites, showAlertText] at hmem
      · rcases htt : title.toDomText? numStr with _ | titleText
        · simp [viewNote, viewNoteSteps, runSteps, hid, hok, hbody, htitle, htt, htmlWrites,
            showAlertText] at hmem
        · rw [hone idText title titleText hid hok htitle htt] at hmem
          simpa using hmem
  · intro c hc
    obtain ⟨a, _, hca⟩ := List.mem_flatMap.mp hc
    exact escapeChar_no_angle a c hca
  · exact ampsBeginEntity_flatMap_escapeChar s.data
  · exact decodeFrom_flatMap_escapeChar s.data

/-- C11, amended, at the content `a<b>&c`: the one write is the paragraph around the
escaped text. -/
theorem content_only_escaped_witness :
    (Response.mk true 0x4069000000000000 (.ok (JVal.obj [("title", .str "T"), ("content", .str "a<b>&c"), ("image_filename", .null)]))).body = .ok (JVal.obj [("title", .str "T"), ("content", .str "a<b>&c"), ("image_filename", .null)]) ∧
    (JVal.obj [("title", .str "T"), ("content", .str "a<b>&c"), ("image_filename", .null)]).get? "content" = some (.str "a<b>&c") ∧
    (JVal.str "7").toStr? (fun _ => "") = some "7" ∧
    (Response.mk true 0x4069000000000000 (.ok (JVal.obj [("title", .str "T"), ("content", .str "a<b>&c"), ("image_filename", .null)]))).ok = true ∧
    (JVal.obj [("title", .str "T"), ("content", .str "a<b>&c"), ("image_filename", .null)]).get? "title" = some (.str "T") ∧
    (JVal.str "T").toDomText? (fun _ => "") = some "T" ∧
    htmlWrites "viewNoteContent" (viewNote (fun _ => "") (.str "7") (.response (Response.mk true 0x4069000000000000 (.ok (JVal.obj [("title", .str "T"), ("content", .str "a<b>&c"), ("image_filename", .null)]))))) =
      [if "a<b>&c" = "" then "<em class=\"text-muted\">No content</em>"
       else "<p style=\"white-space: pre-wrap;\">" ++ escapeText "a<b>&c" ++ "</p>"] ∧
    escapeText "a<b>&c" = "a&lt;b&gt;&amp;c" ∧
    decodeEntities writtenEntities (escapeText "a<b>&c").data = "a<b>&c".data :=
  ⟨rfl, rfl, toStr?_str _ _, rfl, rfl, by simp [JVal.toDomText?, JVal.toStr?],
   (content_only_escaped (fun _ => "") (.str "7") (Response.mk true 0x4069000000000000 (.ok (JVal.obj [("title", .str "T"), ("content", .str "a<b>&c"), ("image_filename", .null)]))) (JVal.obj [("title", .str "T"), ("content", .str "a<b>&c"), ("image_filename", .null)]) "a<b>&c" rfl rfl).2.1
     "7" (.str "T") "T" (toStr?_str _ _) rfl rfl (by simp [JVal.toDomText?, JVal.toStr?]),
   by decide,
   (content_only_escaped (fun _ => "") (.str "7") (Response.mk true 0x4069000000000000 (.ok (JVal.obj [("title", .str "T"), ("content", .str "a<b>&c"), ("image_filename", .null)]))) (JVal.obj [("title", .str "T"), ("content", .str "a<b>&c"), ("image_filename", .null)]) "a<b>&c" rfl rfl).2.2.2.2.2⟩

end NoteWeb
